import Mathlib

/-!
Shallow embedding of `src/main.py` of the daily-news-brief repository.

The program scrapes a "Linkfest" post, extracts external article links,
summarizes each article through a cascading list of generation backends,
and emails the digest.  Network and generation-service effects are
modelled as explicit oracle values (a `GenService` record, `Option`-typed
fetch results); a Python exception that is caught corresponds to the
relevant `Option`/constructor branch.
-/

/-! ### String containment, Python `sub in s` -/

def startsWithChars : List Char → List Char → Bool
  | [], _ => true
  | _ :: _, [] => false
  | a :: as, b :: bs => a == b && startsWithChars as bs

def hasSubChars (pat : List Char) : List Char → Bool
  | [] => startsWithChars pat []
  | c :: cs => startsWithChars pat (c :: cs) || hasSubChars pat cs

/-- Python substring containment `pat in s`. -/
def strContains (s pat : String) : Bool := hasSubChars pat.toList s.toList

def dropLeadingWs : List Char → List Char
  | [] => []
  | c :: cs => if c.isWhitespace then dropLeadingWs cs else c :: cs

/-- Python `s.strip()`: remove leading and trailing whitespace. -/
def pyStrip (s : String) : String :=
  String.mk ((dropLeadingWs ((dropLeadingWs s.toList).reverse)).reverse)

/-! ### Generation service model (google.generativeai oracle)

`attempt m p` is the combined outcome of `genai.GenerativeModel(m)`,
`.generate_content(p)` and `.text` access: either the response text or an
error (any raised exception).  `list_models` is the outcome of
`genai.list_models()`: `none` when the discovery call raises. -/

inductive GenResult where
  | ok (text : String)
  | err
deriving DecidableEq, Repr

structure ModelInfo where
  name : String
  supported_generation_methods : List String
deriving DecidableEq, Repr

structure GenService where
  attempt : String → String → GenResult
  list_models : Option (List ModelInfo)

/-- One observable interaction with the generation service:
a generation attempt against a named backend, or the discovery call. -/
inductive CallEvent where
  | gen (model : String)
  | discovery
deriving DecidableEq, Repr

/-- `priority_models` of `get_working_summary` (src/main.py lines 28-33). -/
def priority_models : List String :=
  ["gemini-1.5-flash", "gemini-1.5-pro", "gemini-pro", "gemini-1.0-pro"]

/-- The prompt template of `get_working_summary` (src/main.py lines 35-41). -/
def mkPrompt (full_text : String) : String :=
  "\n    Read the following news article text and provide a 2-sentence executive summary.\n    Focus on the key facts and numbers.\n    \n    Article Text:\n    " ++ full_text ++ "\n    "

/-- The static-priority loop (src/main.py lines 44-52): try each model name;
on a non-error response return `response.text.strip()` at once, on any
exception continue.  Also records the attempted backends in order. -/
def tryModels (svc : GenService) (prompt : String) :
    List String → Option String × List CallEvent
  | [] => (none, [])
  | m :: ms =>
    match svc.attempt m prompt with
    | GenResult.ok t => (some (pyStrip t), [CallEvent.gen m])
    | GenResult.err =>
      let r := tryModels svc prompt ms
      (r.fst, CallEvent.gen m :: r.snd)

/-- The dynamic-discovery loop body (src/main.py lines 57-64): for each model
returned by `list_models`, if it advertises the `generateContent` method,
attempt it; inner failures continue. -/
def tryDiscovered (svc : GenService) (prompt : String) :
    List ModelInfo → Option String × List CallEvent
  | [] => (none, [])
  | m :: ms =>
    if "generateContent" ∈ m.supported_generation_methods then
      match svc.attempt m.name prompt with
      | GenResult.ok t => (some (pyStrip t), [CallEvent.gen m.name])
      | GenResult.err =>
        let r := tryDiscovered svc prompt ms
        (r.fst, CallEvent.gen m.name :: r.snd)
    else tryDiscovered svc prompt ms

/-- Sentinel returned by `__main__` when the fetched text is shorter than
200 characters (src/main.py line 164); the "insufficient extracted text"
sentinel of the specification. -/
def insufficientTextSentinel : String :=
  "Could not extract text (Site might block bots or be empty)."

/-- Sentinel returned by `get_working_summary` when every backend fails
(src/main.py line 68); the "all backends failed" sentinel of the
specification. -/
def allBackendsFailedSentinel : String :=
  "Summary unavailable (All AI models failed to respond)."

/-- `get_working_summary` (src/main.py lines 23-68), paired with the trace
of service interactions it performs. -/
def get_working_summary (svc : GenService) (full_text : String) :
    String × List CallEvent :=
  let prompt := mkPrompt full_text
  let stat := tryModels svc prompt priority_models
  match stat.fst with
  | some s => (s, stat.snd)
  | none =>
    match svc.list_models with
    | none => (allBackendsFailedSentinel, stat.snd ++ [CallEvent.discovery])
    | some ms =>
      let dyn := tryDiscovered svc prompt ms
      match dyn.fst with
      | some s => (s, stat.snd ++ CallEvent.discovery :: dyn.snd)
      | none =>
        (allBackendsFailedSentinel, stat.snd ++ CallEvent.discovery :: dyn.snd)

/-- The per-article summarization path of `__main__` (src/main.py lines
163-167): texts shorter than 200 characters get the insufficient-text
sentinel and no service interaction; otherwise `get_working_summary` runs.
This is the `summarize` operation of the specification. -/
def summarize (svc : GenService) (full_text : String) :
    String × List CallEvent :=
  if full_text.length < 200 then (insufficientTextSentinel, [])
  else get_working_summary svc full_text

/-! ### Homepage scan, `get_latest_linkfest_url` -/

/-- An HTML anchor: its visible text (`get_text()`) and its `href`
attribute, `none` when the attribute is absent (the Python subscript
access of the href raises `KeyError` then). -/
structure Anchor where
  text : String
  href : Option String
deriving DecidableEq, Repr

/-- The match condition of src/main.py line 81:
`"Linkfest" in text and "Continue reading" not in text`. -/
def matchesLinkfest (a : Anchor) : Bool :=
  strContains a.text "Linkfest" && !(strContains a.text "Continue reading")

/-- The loop over all anchors of the homepage (src/main.py lines 79-82):
`none` when no anchor matches, otherwise `some` of the href attribute of
the first matching anchor (which may itself be absent). -/
def scanAnchors : List Anchor → Option (Option String)
  | [] => none
  | a :: rest =>
    if matchesLinkfest a then some a.href else scanAnchors rest

/-- `get_latest_linkfest_url` (src/main.py lines 73-85).  The argument is
the fetched homepage as its list of anchors in document order, `none` when
the fetch raises.  A `KeyError` from a matching anchor without `href` is
caught by the surrounding `except`, so the function returns `None`. -/
def get_latest_linkfest_url (page : Option (List Anchor)) : Option String :=
  match page with
  | none => none
  | some anchors =>
    match scanAnchors anchors with
    | none => none
    | some none => none
    | some (some h) => some h

/-! ### Post-page extraction, `extract_article_links` -/

/-- A paragraph block of the content container: its full visible text and
its anchor descendants in document order. -/
structure Para where
  text : String
  anchors : List Anchor
deriving DecidableEq, Repr

structure ArticleRef where
  title : String
  url : String
deriving DecidableEq, Repr

/-- The denylist test of src/main.py line 102. -/
def denylisted (href : String) : Bool :=
  strContains href "alphaideas.in" || strContains href "facebook.com" ||
    strContains href "twitter.com"

/-- The loop over the paragraph blocks of the content div (src/main.py
lines 97-106).  The first anchor of the paragraph is the head of its
anchor list; a missing `href` attribute raises `KeyError`, which the
outer `except` catches, so the links accumulated so far are returned
(modelled by the `[]` continuation); an empty `href` string is falsy and
the paragraph is skipped. -/
def extractLoop : List Para → List ArticleRef
  | [] => []
  | p :: ps =>
    match p.anchors.head? with
    | none => extractLoop ps
    | some a =>
      match a.href with
      | none => []
      | some h =>
        if h = "" then extractLoop ps
        else if denylisted h then extractLoop ps
        else { title := pyStrip p.text, url := h } :: extractLoop ps

/-- `extract_article_links` (src/main.py lines 87-109).  The argument is
the fetched post page: `none` when the fetch raises, `some none` when no
`entry-content` div is found, otherwise the paragraph blocks of that div.
All failure paths return the accumulated (possibly empty) list. -/
def extract_article_links (page : Option (Option (List Para))) :
    List ArticleRef :=
  match page with
  | none => []
  | some none => []
  | some (some ps) => extractLoop ps

/-! ### Digest assembly, the `__main__` article loop -/

/-- The article loop of `__main__` (src/main.py lines 157-171) viewed as
the ordered sequence of (reference, summary) pairs appended to the digest:
`articles[:10]`, each paired with its `summarize` result.  `fetched` is
the `fetch_article_text` oracle. -/
def buildDigest (svc : GenService) (fetched : String → String)
    (articles : List ArticleRef) : List (ArticleRef × String) :=
  (articles.take 10).map (fun a => (a, (summarize svc (fetched a.url)).fst))

/-! ### Concrete services and pages used by witnesses -/

/-- A service on which every attempt and the discovery call fail. -/
def svcAllFail : GenService :=
  { attempt := fun _ _ => GenResult.err, list_models := none }

/-- A service whose first priority backend answers with a non-empty text. -/
def svcFirstOk : GenService :=
  { attempt := fun m _ =>
      if m = "gemini-1.5-flash" then GenResult.ok " A fine summary. " else GenResult.err,
    list_models := none }

/-- A service whose first priority backend answers with whitespace only
and whose second would answer with a genuine summary. -/
def svcEmptyThenOk : GenService :=
  { attempt := fun m _ =>
      if m = "gemini-1.5-flash" then GenResult.ok "   "
      else GenResult.ok "A real summary.",
    list_models := none }

/-- A 200-character article text. -/
def longText : String := String.mk (List.replicate 200 'a')

/-! ### Helper lemmas -/

lemma tryModels_fst_some (svc : GenService) (prompt : String) :
    ∀ ms s, (tryModels svc prompt ms).fst = some s →
      ∃ m t, svc.attempt m prompt = GenResult.ok t ∧ s = pyStrip t := by
  intro ms
  induction ms with
  | nil => intro s h; simp [tryModels] at h
  | cons m ms ih =>
    intro s h
    unfold tryModels at h
    cases hm : svc.attempt m prompt with
    | ok t =>
      rw [hm] at h
      simp at h
      exact ⟨m, t, hm, h.symm⟩
    | err =>
      rw [hm] at h
      simp at h
      exact ih s h

lemma tryDiscovered_fst_some (svc : GenService) (prompt : String) :
    ∀ ms s, (tryDiscovered svc prompt ms).fst = some s →
      ∃ m t, svc.attempt m prompt = GenResult.ok t ∧ s = pyStrip t := by
  intro ms
  induction ms with
  | nil => intro s h; simp [tryDiscovered] at h
  | cons m ms ih =>
    intro s h
    unfold tryDiscovered at h
    by_cases hc : "generateContent" ∈ m.supported_generation_methods
    · rw [if_pos hc] at h
      cases hm : svc.attempt m.name prompt with
      | ok t =>
        rw [hm] at h
        simp at h
        exact ⟨m.name, t, hm, h.symm⟩
      | err =>
        rw [hm] at h
        simp at h
        exact ih s h
    · rw [if_neg hc] at h
      exact ih s h

lemma tryModels_all_err (svc : GenService) (prompt : String) :
    ∀ ms, (∀ m ∈ ms, svc.attempt m prompt = GenResult.err) →
      (tryModels svc prompt ms).fst = none := by
  intro ms
  induction ms with
  | nil => intro _; simp [tryModels]
  | cons m ms ih =>
    intro h
    unfold tryModels
    rw [h m (List.mem_cons_self m ms)]
    simpa using ih (fun x hx => h x (List.mem_cons_of_mem m hx))

lemma tryDiscovered_all_err (svc : GenService) (prompt : String) :
    ∀ ms, (∀ mi ∈ ms, "generateContent" ∈ mi.supported_generation_methods →
        svc.attempt mi.name prompt = GenResult.err) →
      (tryDiscovered svc prompt ms).fst = none := by
  intro ms
  induction ms with
  | nil => intro _; simp [tryDiscovered]
  | cons m ms ih =>
    intro h
    unfold tryDiscovered
    by_cases hc : "generateContent" ∈ m.supported_generation_methods
    · rw [if_pos hc, h m (List.mem_cons_self m ms) hc]
      simpa using ih (fun x hx hcx => h x (List.mem_cons_of_mem m hx) hcx)
    · rw [if_neg hc]
      exact ih (fun x hx hcx => h x (List.mem_cons_of_mem m hx) hcx)

lemma tryModels_split (svc : GenService) (prompt : String) :
    ∀ pre m post t, (∀ x ∈ pre, svc.attempt x prompt = GenResult.err) →
      svc.attempt m prompt = GenResult.ok t →
      tryModels svc prompt (pre ++ m :: post) =
        (some (pyStrip t), pre.map CallEvent.gen ++ [CallEvent.gen m]) := by
  intro pre
  induction pre with
  | nil =>
    intro m post t _ hok
    simp [tryModels, hok]
  | cons x pre ih =>
    intro m post t hpre hok
    have hx : svc.attempt x prompt = GenResult.err :=
      hpre x (List.mem_cons_self x pre)
    have := ih m post t (fun y hy => hpre y (List.mem_cons_of_mem x hy)) hok
    simp [tryModels, hx, this]

lemma scanAnchors_append (rest : List Anchor) :
    ∀ pre, (∀ b ∈ pre, matchesLinkfest b = false) →
      scanAnchors (pre ++ rest) = scanAnchors rest := by
  intro pre
  induction pre with
  | nil => intro _; rfl
  | cons b pre ih =>
    intro h
    have hb : matchesLinkfest b = false := h b (List.mem_cons_self b pre)
    have := ih (fun y hy => h y (List.mem_cons_of_mem b hy))
    simp [scanAnchors, hb, this]

lemma scanAnchors_none (anchors : List Anchor)
    (h : ∀ b ∈ anchors, matchesLinkfest b = false) :
    scanAnchors anchors = none := by
  induction anchors with
  | nil => rfl
  | cons b rest ih =>
    have hb : matchesLinkfest b = false := h b (List.mem_cons_self b rest)
    simp [scanAnchors, hb,
      ih (fun y hy => h y (List.mem_cons_of_mem b hy))]

lemma extractLoop_mem (r : ArticleRef) :
    ∀ ps, r ∈ extractLoop ps →
      denylisted r.url = false ∧
      ∃ p ∈ ps, ∃ a, p.anchors.head? = some a ∧ a.href = some r.url ∧
        r.title = pyStrip p.text := by
  intro ps
  induction ps with
  | nil => intro h; simp [extractLoop] at h
  | cons p ps ih =>
    intro h
    cases hhd : p.anchors.head? with
    | none =>
      simp only [extractLoop, hhd] at h
      obtain ⟨hd, p', hp', rest⟩ := ih h
      exact ⟨hd, p', List.mem_cons_of_mem p hp', rest⟩
    | some a =>
      cases hhr : a.href with
      | none => simp [extractLoop, hhd, hhr] at h
      | some u =>
        by_cases hu : u = ""
        · simp only [extractLoop, hhd, hhr, if_pos hu] at h
          obtain ⟨hd, p', hp', rest⟩ := ih h
          exact ⟨hd, p', List.mem_cons_of_mem p hp', rest⟩
        · by_cases hd : denylisted u
          · simp only [extractLoop, hhd, hhr, if_neg hu, if_pos hd] at h
            obtain ⟨hd2, p', hp', rest⟩ := ih h
            exact ⟨hd2, p', List.mem_cons_of_mem p hp', rest⟩
          · simp only [extractLoop, hhd, hhr, if_neg hu, if_neg hd] at h
            rcases List.mem_cons.mp h with heq | hmem
            · subst heq
              exact ⟨by simpa using hd, p, List.mem_cons_self p ps,
                a, hhd, hhr, rfl⟩
            · obtain ⟨hd2, p', hp', rest⟩ := ih hmem
              exact ⟨hd2, p', List.mem_cons_of_mem p hp', rest⟩

lemma extractLoop_length : ∀ ps, (extractLoop ps).length ≤ ps.length := by
  intro ps
  induction ps with
  | nil => simp [extractLoop]
  | cons p ps ih =>
    cases hhd : p.anchors.head? with
    | none =>
      simp only [extractLoop, hhd]
      exact le_trans ih (by simp)
    | some a =>
      cases hhr : a.href with
      | none => simp [extractLoop, hhd, hhr]
      | some u =>
        by_cases hu : u = ""
        · simp only [extractLoop, hhd, hhr, if_pos hu]
          exact le_trans ih (by simp)
        · by_cases hd : denylisted u
          · simp only [extractLoop, hhd, hhr, if_neg hu, if_pos hd]
            exact le_trans ih (by simp)
          · simp only [extractLoop, hhd, hhr, if_neg hu, if_neg hd,
              List.length_cons]
            simpa using ih

lemma gws_eq_static (svc : GenService) (text s : String) (tr : List CallEvent)
    (h : tryModels svc (mkPrompt text) priority_models = (some s, tr)) :
    get_working_summary svc text = (s, tr) := by
  simp only [get_working_summary]
  rw [h]

lemma gws_eq_nolist (svc : GenService) (text : String) (tr : List CallEvent)
    (h1 : tryModels svc (mkPrompt text) priority_models = (none, tr))
    (h2 : svc.list_models = none) :
    get_working_summary svc text =
      (allBackendsFailedSentinel, tr ++ [CallEvent.discovery]) := by
  simp only [get_working_summary]
  rw [h1, h2]

lemma gws_eq_dyn_some (svc : GenService) (text : String) (tr : List CallEvent)
    (ms : List ModelInfo) (s : String) (tr2 : List CallEvent)
    (h1 : tryModels svc (mkPrompt text) priority_models = (none, tr))
    (h2 : svc.list_models = some ms)
    (h3 : tryDiscovered svc (mkPrompt text) ms = (some s, tr2)) :
    get_working_summary svc text = (s, tr ++ CallEvent.discovery :: tr2) := by
  simp only [get_working_summary, h1, h2, h3]

lemma gws_eq_dyn_none (svc : GenService) (text : String) (tr : List CallEvent)
    (ms : List ModelInfo) (tr2 : List CallEvent)
    (h1 : tryModels svc (mkPrompt text) priority_models = (none, tr))
    (h2 : svc.list_models = some ms)
    (h3 : tryDiscovered svc (mkPrompt text) ms = (none, tr2)) :
    get_working_summary svc text =
      (allBackendsFailedSentinel, tr ++ CallEvent.discovery :: tr2) := by
  simp only [get_working_summary, h1, h2, h3]

lemma get_working_summary_shape (svc : GenService) (text : String) :
    (get_working_summary svc text).fst = allBackendsFailedSentinel ∨
    ∃ m t, svc.attempt m (mkPrompt text) = GenResult.ok t ∧
      (get_working_summary svc text).fst = pyStrip t := by
  rcases hstat : tryModels svc (mkPrompt text) priority_models with ⟨o, tr⟩
  cases o with
  | some s =>
    obtain ⟨m, t, hok, hst⟩ :=
      tryModels_fst_some svc (mkPrompt text) priority_models s (by rw [hstat])
    rw [gws_eq_static svc text s tr hstat]
    exact Or.inr ⟨m, t, hok, hst⟩
  | none =>
    cases hlm : svc.list_models with
    | none =>
      rw [gws_eq_nolist svc text tr hstat hlm]
      exact Or.inl rfl
    | some ms =>
      rcases hdisc : tryDiscovered svc (mkPrompt text) ms with ⟨o2, tr2⟩
      cases o2 with
      | some s =>
        obtain ⟨m, t, hok, hst⟩ :=
          tryDiscovered_fst_some svc (mkPrompt text) ms s (by rw [hdisc])
        rw [gws_eq_dyn_some svc text tr ms s tr2 hstat hlm hdisc]
        exact Or.inr ⟨m, t, hok, hst⟩
      | none =>
        rw [gws_eq_dyn_none svc text tr ms tr2 hstat hlm hdisc]
        exact Or.inl rfl

/-! ### Claim theorems -/

/-- Claim C1: for every input text whose length is below the minimum
content threshold of 200 characters, `summarize` returns the
insufficient-text sentinel immediately and invokes no generation backend
(the interaction trace is empty). -/
theorem summarize_short_text_sentinel (svc : GenService) (text : String)
    (h : text.length < 200) :
    summarize svc text = (insufficientTextSentinel, []) := by
  simp [summarize, h]

theorem summarize_short_text_sentinel_witness :
    summarize svcFirstOk "tiny" = (insufficientTextSentinel, []) :=
  summarize_short_text_sentinel svcFirstOk "tiny" (by decide)

/-- Claim C2: for every input text, `summarize` always yields a string:
either one of the two sentinels, or the trimmed text of some non-error
backend response.  Every backend, discovery and response-handling failure
is absorbed (the embedding is total: every failure branch of the source is
a caught exception continuing the cascade). -/
theorem summarize_result_shape (svc : GenService) (text : String) :
    (summarize svc text).fst = insufficientTextSentinel ∨
    (summarize svc text).fst = allBackendsFailedSentinel ∨
    ∃ m t, svc.attempt m (mkPrompt text) = GenResult.ok t ∧
      (summarize svc text).fst = pyStrip t := by
  by_cases hl : text.length < 200
  · simp [summarize, hl]
  · have h := get_working_summary_shape svc text
    simp only [summarize, if_neg hl]
    rcases h with h | h
    · exact Or.inr (Or.inl h)
    · exact Or.inr (Or.inr h)

/-- Claim C3: for every text at or above the threshold, if the first
backend of the static priority list answers without error, `summarize`
returns its trimmed output verbatim and the interaction trace is exactly
that one generation call: no other backend and no discovery call. -/
theorem summarize_first_backend_success (svc : GenService) (text t : String)
    (hlen : 200 ≤ text.length)
    (hok : svc.attempt "gemini-1.5-flash" (mkPrompt text) = GenResult.ok t) :
    summarize svc text = (pyStrip t, [CallEvent.gen "gemini-1.5-flash"]) := by
  have hnl : ¬ text.length < 200 := Nat.not_lt.mpr hlen
  have h1 : tryModels svc (mkPrompt text) priority_models =
      (some (pyStrip t), [CallEvent.gen "gemini-1.5-flash"]) := by
    simpa [priority_models] using
      tryModels_split svc (mkPrompt text) [] "gemini-1.5-flash"
        ["gemini-1.5-pro", "gemini-pro", "gemini-1.0-pro"] t (by simp) hok
  simp only [summarize, if_neg hnl, get_working_summary]
  rw [h1]

set_option maxRecDepth 10000 in
theorem summarize_first_backend_success_witness :
    summarize svcFirstOk longText =
      (pyStrip " A fine summary. ", [CallEvent.gen "gemini-1.5-flash"]) :=
  summarize_first_backend_success svcFirstOk longText " A fine summary. "
    (by decide) (by decide)

/-- Claim C4: if every backend in the static priority list fails and
either the discovery call fails or every discovered backend that supports
generation also fails, `summarize` returns the all-backends-failed
sentinel. -/
theorem summarize_all_backends_fail (svc : GenService) (text : String)
    (hlen : 200 ≤ text.length)
    (hstatic : ∀ m ∈ priority_models,
      svc.attempt m (mkPrompt text) = GenResult.err)
    (hdyn : svc.list_models = none ∨
      ∀ ms, svc.list_models = some ms → ∀ mi ∈ ms,
        "generateContent" ∈ mi.supported_generation_methods →
        svc.attempt mi.name (mkPrompt text) = GenResult.err) :
    (summarize svc text).fst = allBackendsFailedSentinel := by
  have hnl : ¬ text.length < 200 := Nat.not_lt.mpr hlen
  rcases hstat : tryModels svc (mkPrompt text) priority_models with ⟨o, tr⟩
  have ho : o = none := by
    have h := tryModels_all_err svc (mkPrompt text) priority_models hstatic
    rw [hstat] at h
    exact h
  subst ho
  simp only [summarize, if_neg hnl]
  cases hlm : svc.list_models with
  | none => rw [gws_eq_nolist svc text tr hstat hlm]
  | some ms =>
    rcases hdisc : tryDiscovered svc (mkPrompt text) ms with ⟨o2, tr2⟩
    have ho2 : o2 = none := by
      rcases hdyn with hnone | hall
      · rw [hlm] at hnone; cases hnone
      · have h := tryDiscovered_all_err svc (mkPrompt text) ms (hall ms hlm)
        rw [hdisc] at h
        exact h
    subst ho2
    rw [gws_eq_dyn_none svc text tr ms tr2 hstat hlm hdisc]

set_option maxRecDepth 10000 in
theorem summarize_all_backends_fail_witness :
    (summarize svcAllFail longText).fst = allBackendsFailedSentinel :=
  summarize_all_backends_fail svcAllFail longText (by decide)
    (fun _ _ => rfl) (Or.inl rfl)

set_option maxRecDepth 10000 in
/-- Claim C5, counterexample: on a service whose first priority backend
answers with a whitespace-only (hence non-error) response, `summarize`
stops at that backend and returns the empty trimmed string; the next
backend is never tried, contradicting the claim that an empty response
does not terminate the cascade. -/
theorem summarize_empty_response_counterexample :
    svcEmptyThenOk.attempt "gemini-1.5-flash" (mkPrompt longText) =
      GenResult.ok "   " ∧
    pyStrip "   " = "" ∧
    summarize svcEmptyThenOk longText =
      ("", [CallEvent.gen "gemini-1.5-flash"]) := by
  refine ⟨rfl, by decide, ?_⟩
  decide

/-- Claim C5 as amended: a backend attempt is treated as successful
whenever its response is non-error, even when the response is empty or
whitespace-only; the cascade terminates at the first non-error backend,
returns its trimmed (possibly empty) output, and no later backend and no
discovery call is attempted. -/
theorem summarize_nonerror_response_terminates (svc : GenService)
    (text m t : String) (pre post : List String)
    (hlen : 200 ≤ text.length)
    (hsplit : priority_models = pre ++ m :: post)
    (hpre : ∀ x ∈ pre, svc.attempt x (mkPrompt text) = GenResult.err)
    (hok : svc.attempt m (mkPrompt text) = GenResult.ok t) :
    summarize svc text = (pyStrip t, pre.map CallEvent.gen ++ [CallEvent.gen m]) := by
  have hnl : ¬ text.length < 200 := Nat.not_lt.mpr hlen
  have h1 := tryModels_split svc (mkPrompt text) pre m post t hpre hok
  rw [← hsplit] at h1
  simp only [summarize, if_neg hnl, get_working_summary]
  rw [h1]

set_option maxRecDepth 10000 in
theorem summarize_nonerror_response_terminates_witness :
    summarize svcEmptyThenOk longText =
      (pyStrip "   ", List.map CallEvent.gen [] ++ [CallEvent.gen "gemini-1.5-flash"]) :=
  summarize_nonerror_response_terminates svcEmptyThenOk longText
    "gemini-1.5-flash" "   " []
    ["gemini-1.5-pro", "gemini-pro", "gemini-1.0-pro"]
    (by decide) rfl (by simp) (by decide)

/-- The paragraph blocks of a concrete post page used by witnesses:
one clean external link and one social-sharing link. -/
def parasEx : List Para :=
  [{ text := " Good read ",
     anchors := [{ text := "Good", href := some "https://example.com/x" }] },
   { text := "Share this",
     anchors := [{ text := "FB", href := some "https://facebook.com/share" }] }]

def pageEx : Option (Option (List Para)) := some (some parasEx)

/-- Claim C6: locate returns the href of the first anchor in document
order whose visible text contains "Linkfest" and does not contain
"Continue reading" (provided that anchor carries an href attribute);
it returns absent when the fetch fails or no anchor matches; and on the
homepage holding the anchors "Linkfest Week 12 Continue reading" (href B)
and "Linkfest Week 12" (href A) it returns A, not B. -/
theorem locate_first_matching_anchor :
    get_latest_linkfest_url none = none ∧
    (∀ anchors : List Anchor, (∀ b ∈ anchors, matchesLinkfest b = false) →
      get_latest_linkfest_url (some anchors) = none) ∧
    (∀ (pre post : List Anchor) (a : Anchor) (h : String),
      (∀ b ∈ pre, matchesLinkfest b = false) → matchesLinkfest a = true →
      a.href = some h →
      get_latest_linkfest_url (some (pre ++ a :: post)) = some h) ∧
    get_latest_linkfest_url (some
      [{ text := "Linkfest Week 12 Continue reading", href := some "B" },
       { text := "Linkfest Week 12", href := some "A" }]) = some "A" := by
  refine ⟨rfl, ?_, ?_, by decide⟩
  · intro anchors hall
    simp [get_latest_linkfest_url, scanAnchors_none anchors hall]
  · intro pre post a h hpre hm hh
    simp [get_latest_linkfest_url, scanAnchors_append (a :: post) pre hpre,
      scanAnchors, hm, hh]

theorem locate_first_matching_anchor_witness :
    get_latest_linkfest_url (some
      ([{ text := "Other post", href := some "O" }] ++
        { text := "Linkfest Week 13", href := some "C" } ::
        [{ text := "Linkfest Week 12", href := some "A" }])) = some "C" :=
  locate_first_matching_anchor.2.2.1
    [{ text := "Other post", href := some "O" }]
    [{ text := "Linkfest Week 12", href := some "A" }]
    { text := "Linkfest Week 13", href := some "C" } "C"
    (by decide) (by decide) rfl

/-- Claim C7: no ArticleReference returned by extract has a URL containing
any denylisted substring (the source site domain or the social-sharing
domains). -/
theorem extract_no_denylisted_url (page : Option (Option (List Para)))
    (r : ArticleRef) (hr : r ∈ extract_article_links page) :
    denylisted r.url = false := by
  cases page with
  | none => simp [extract_article_links] at hr
  | some c =>
    cases c with
    | none => simp [extract_article_links] at hr
    | some ps => exact (extractLoop_mem r ps hr).1

theorem extract_no_denylisted_url_witness :
    denylisted "https://example.com/x" = false :=
  extract_no_denylisted_url pageEx
    { title := "Good read", url := "https://example.com/x" } (by decide)

/-- Claim C8: extract returns at most one ArticleReference per paragraph
block, and every returned reference stems from the first anchor of its
paragraph (its URL is that first anchor href; its title is the trimmed
paragraph text), so anchors after the first in a paragraph are never
considered. -/
theorem extract_one_ref_per_paragraph (ps : List Para) :
    (extract_article_links (some (some ps))).length ≤ ps.length ∧
    ∀ r ∈ extract_article_links (some (some ps)), ∃ p ∈ ps, ∃ a,
      p.anchors.head? = some a ∧ a.href = some r.url ∧
      r.title = pyStrip p.text := by
  exact ⟨extractLoop_length ps, fun r hr => (extractLoop_mem r ps hr).2⟩

theorem extract_one_ref_per_paragraph_witness :
    ∃ p ∈ parasEx, ∃ a, p.anchors.head? = some a ∧
      a.href = some "https://example.com/x" ∧
      "Good read" = pyStrip p.text :=
  (extract_one_ref_per_paragraph parasEx).2
    { title := "Good read", url := "https://example.com/x" } (by decide)

/-- Claim C9: the digest never holds more than 10 (reference, summary)
pairs, whatever the number of extracted references, and the references of
its pairs are an initial segment of the extracted list, in the order the
extractor discovered them. -/
theorem digest_capped_and_ordered (svc : GenService)
    (fetched : String → String) (articles : List ArticleRef) :
    (buildDigest svc fetched articles).length ≤ 10 ∧
    ∃ rest, articles = (buildDigest svc fetched articles).map Prod.fst ++ rest := by
  have hmap : (buildDigest svc fetched articles).map Prod.fst =
      articles.take 10 := by
    unfold buildDigest
    rw [List.map_map]
    have hcomp : (Prod.fst ∘ fun a : ArticleRef =>
        (a, (summarize svc (fetched a.url)).fst)) = id := rfl
    rw [hcomp, List.map_id]
  constructor
  · have hlen : (buildDigest svc fetched articles).length =
        min 10 articles.length := by
      simp [buildDigest]
    omega
  · exact ⟨articles.drop 10, by rw [hmap, List.take_append_drop]⟩

/-- Claim C10: when the first anchor matching the Linkfest condition lacks
an href attribute, the attribute access raises, the surrounding handler
returns absent, and later matching anchors with hrefs are never reached. -/
theorem locate_missing_href_aborts (pre : List Anchor) (a : Anchor)
    (post : List Anchor)
    (hpre : ∀ b ∈ pre, matchesLinkfest b = false)
    (hm : matchesLinkfest a = true) (hh : a.href = none) :
    get_latest_linkfest_url (some (pre ++ a :: post)) = none := by
  simp [get_latest_linkfest_url, scanAnchors_append (a :: post) pre hpre,
    scanAnchors, hm, hh]

theorem locate_missing_href_aborts_witness :
    get_latest_linkfest_url (some
      ([] ++ { text := "Linkfest Week 9", href := none } ::
        [{ text := "Linkfest Week 8", href := some "https://alphaideas.in/w8" }])) = none :=
  locate_missing_href_aborts [] { text := "Linkfest Week 9", href := none }
    [{ text := "Linkfest Week 8", href := some "https://alphaideas.in/w8" }]
    (by decide) (by decide) rfl
